import Mathlib

set_option maxRecDepth 100000

/-!
Verification development for the Wardha District Court scraper
(`scraper/fetch_wardha_case_data.py`).  The Python code is shallowly
embedded: parsed HTML documents are modelled by a structure carrying the
observables the scraper queries out of BeautifulSoup, the HTTP session is
modelled by an explicit world function from requests to optional
responses, and every scraper method becomes a total Lean function.
Python exceptions swallowed by the code are modelled by `Option`.
-/

namespace Wardha

/-! ## String utilities (Python `in`, `strip`, `lower`, truthiness) -/

/-- `listIsPrefixOf needle hay`: the char list `needle` starts `hay`. -/
def listIsPrefixOf : List Char → List Char → Bool
  | [], _ => true
  | _ :: _, [] => false
  | a :: as, b :: bs => a = b && listIsPrefixOf as bs

/-- Substring containment over char lists (Python `needle in hay`). -/
def listContains (hay needle : List Char) : Bool :=
  match hay with
  | [] => listIsPrefixOf needle []
  | _ :: rest => listIsPrefixOf needle hay || listContains rest needle

/-- Python's `needle in hay` on strings. -/
def containsSub (hay needle : String) : Bool :=
  listContains hay.data needle.data

/-- Python `str.strip()` (whitespace from both ends). -/
def pyStrip (s : String) : String :=
  ⟨((s.data.dropWhile Char.isWhitespace).reverse.dropWhile Char.isWhitespace).reverse⟩

/-- Python `str.lower()` (character-wise; `Char.toLower` is the
identity outside ASCII, which covers every string the scraper lowers). -/
def pyLower (s : String) : String := ⟨s.data.map Char.toLower⟩

/-- Python `str.startswith(pre)`. -/
def pyStartsWith (s pre : String) : Bool := listIsPrefixOf pre.data s.data

/-- Python `sep.join(parts)`. -/
def pyJoin (sep : String) : List String → String
  | [] => ""
  | [x] => x
  | x :: y :: rest => x ++ sep ++ pyJoin sep (y :: rest)

/-- First-occurrence de-duplication of a string list. -/
def dedupFirst (l : List String) : List String :=
  l.foldl (fun acc s => if acc.contains s then acc else acc ++ [s]) []

/-- Python truthiness of an optional string: `None` and `""` are falsy. -/
def optTruthy : Option String → Bool
  | none => false
  | some s => s ≠ ""

/-- Python `any(kw in label for kw in kws)`. -/
def anyKw (label : String) (kws : List String) : Bool :=
  kws.any (fun k => containsSub label k)

/-! ## Python dict as an association list

Python dicts keep one binding per key; `d.update(u)` overwrites the
values of keys already in `d` (keeping their position) and appends the
remaining keys of `u` in `u`'s order. -/

/-- First binding of `k`, as Python dict lookup. -/
def dictLookup : List (String × String) → String → Option String
  | [], _ => none
  | (k, v) :: rest, key => if k = key then some v else dictLookup rest key

/-- Python `base.copy(); base.update(upd)`: values of `upd` win on
common keys, keys only in `upd` are appended in order. -/
def dictUpdate (base upd : List (String × String)) : List (String × String) :=
  base.map (fun p => (p.1, (dictLookup upd p.1).getD p.2)) ++
    upd.filter (fun q => (dictLookup base q.1).isNone)

/-! ## Date-token regular expressions

The scraper uses two regex shapes: day-first `\d{1,2} S \d{1,2} S \d{4}`
and year-first `\d{4} S \d{1,2} S \d{1,2}`, where `S` is a dash, slash
or dot.  They carry word boundaries (`\b`) in `_alternative_parsing` and
none in `_extract_orders`.  They are implemented below with the same
leftmost-match, greedy-with-backtracking semantics as Python `re`. -/

def isSepC (c : Char) : Bool := c = '-' || c = '/' || c = '.'

/-- Word character for `\b`.  Python `re` treats unicode letters as word
characters; non-ASCII codepoints (Devanagari text here) are approximated
as word characters. -/
def isWordC (c : Char) : Bool := c.isAlphanum || c = '_' || 127 < c.toNat

/-- Greedy candidates for `\d{1,2}` (two digits first), as (matched, rest). -/
def take12s : List Char → List (List Char × List Char)
  | a :: b :: r =>
    if a.isDigit && b.isDigit then [([a, b], r), ([a], b :: r)]
    else if a.isDigit then [([a], b :: r)] else []
  | [a] => if a.isDigit then [([a], [])] else []
  | [] => []

/-- `\d{4}`: exactly four digits. -/
def take4s : List Char → Option (List Char × List Char)
  | a :: b :: c :: d :: r =>
    if a.isDigit && b.isDigit && c.isDigit && d.isDigit then some ([a, b, c, d], r)
    else none
  | _ => none

/-- Trailing `\b` (when `bEnd` is set): the next character, if any, must
not be a word character. -/
def endBoundaryOk (bEnd : Bool) : List Char → Bool
  | [] => true
  | c :: _ => !bEnd || !isWordC c

/-- Match the day-first date shape (`\d{1,2}`, separator, `\d{1,2}`,
separator, `\d{4}`) at the head of `cs` (with a trailing `\b` when
`bEnd`), returning (matched, rest). -/
def matchDMY (bEnd : Bool) (cs : List Char) : Option (List Char × List Char) :=
  (take12s cs).findSome? fun p1 =>
    match p1.2 with
    | s1 :: cs2 =>
      if isSepC s1 then
        (take12s cs2).findSome? fun p2 =>
          match p2.2 with
          | s2 :: cs4 =>
            if isSepC s2 then
              match take4s cs4 with
              | some (r3, cs5) =>
                if endBoundaryOk bEnd cs5 then
                  some (p1.1 ++ s1 :: p2.1 ++ s2 :: r3, cs5)
                else none
              | none => none
            else none
          | [] => none
      else none
    | [] => none

/-- Match the year-first date shape (`\d{4}`, separator, `\d{1,2}`,
separator, `\d{1,2}`) at the head of `cs` (with a trailing `\b` when
`bEnd`). -/
def matchYMD (bEnd : Bool) (cs : List Char) : Option (List Char × List Char) :=
  match take4s cs with
  | some (r1, cs1) =>
    match cs1 with
    | s1 :: cs2 =>
      if isSepC s1 then
        (take12s cs2).findSome? fun p2 =>
          match p2.2 with
          | s2 :: cs4 =>
            if isSepC s2 then
              (take12s cs4).findSome? fun p3 =>
                if endBoundaryOk bEnd p3.2 then
                  some (r1 ++ s1 :: p2.1 ++ s2 :: p3.1, p3.2)
                else none
            else none
          | [] => none
      else none
    | [] => none
  | none => none

/-- `re.findall`: non-overlapping leftmost matches, scanning left to
right.  When `useB` is set a leading `\b` is required (the previous
character must not be a word character). -/
def findallGo (pat : List Char → Option (List Char × List Char)) (useB : Bool) :
    Nat → Option Char → List Char → List String
  | 0, _, _ => []
  | _ + 1, _, [] => []
  | fuel + 1, prev, c :: rest =>
    let startOk := !useB || (match prev with | none => true | some p => !isWordC p)
    if startOk then
      match pat (c :: rest) with
      | some (m, rest2) => String.mk m :: findallGo pat useB fuel m.getLast? rest2
      | none => findallGo pat useB fuel (some c) rest
    else findallGo pat useB fuel (some c) rest

def reFindall (pat : List Char → Option (List Char × List Char)) (useB : Bool)
    (s : String) : List String :=
  findallGo pat useB (s.data.length + 1) none s.data

/-- `re.search`: first match anywhere, as the matched string. -/
def searchGo (pat : List Char → Option (List Char × List Char)) :
    Nat → List Char → Option String
  | 0, _ => none
  | _ + 1, [] => none
  | fuel + 1, c :: rest =>
    match pat (c :: rest) with
    | some (m, _) => some (String.mk m)
    | none => searchGo pat fuel rest

def reSearch (pat : List Char → Option (List Char × List Char)) (s : String) :
    Option String :=
  searchGo pat (s.data.length + 1) s.data

/-- The order-extraction date probe: try the day-first pattern, then the
year-first pattern, first match wins (`for pattern in date_patterns`). -/
def dateTokenIn (t : String) : Option String :=
  match reSearch (matchDMY false) t with
  | some g => some g
  | none => reSearch (matchYMD false) t

/-- `re.findall(r'\d+', s)`: maximal digit runs. -/
def digitRunsGo : Nat → List Char → List (List Char)
  | 0, _ => []
  | fuel + 1, cs =>
    match cs.dropWhile (fun c => !c.isDigit) with
    | [] => []
    | c :: rest =>
      ((c :: rest).takeWhile Char.isDigit) ::
        digitRunsGo fuel ((c :: rest).dropWhile Char.isDigit)

def digitRuns (s : String) : List String :=
  (digitRunsGo (s.data.length + 1) s.data).map String.mk

/-- `int` on a run of decimal digits. -/
def digitsToNat (s : String) : Nat :=
  s.data.foldl (fun a c => 10 * a + (c.toNat - '0'.toNat)) 0

/-! ## `datetime.strptime` for the scraper's format list

CPython compiles each directive to a regex fragment: `%d` is
`3[01]|[12]\d|0[1-9]|[1-9]`, `%m` is `1[0-2]|0[1-9]|[1-9]`, `%Y` is four
digits, `%y` two digits (value ≤ 68 mapped to 2000+, else 1900+), `%B`/`%b`
a case-insensitive month-name alternation sorted longest first, literal
whitespace matches `\s+`, and the whole string must be consumed.  A
successful pattern match still fails (`ValueError`) when the components do
not form a real calendar date. -/

inductive FTok where
  | D | M | Y4 | Y2 | B | Bb
  | lit (c : Char)
  | ws
deriving DecidableEq

def dayBranches : List Char → List (Nat × List Char)
  | a :: b :: r =>
    (if a = '3' && (b = '0' || b = '1') then [(30 + (b.toNat - '0'.toNat), r)] else []) ++
    (if (a = '1' || a = '2') && b.isDigit then
      [((a.toNat - '0'.toNat) * 10 + (b.toNat - '0'.toNat), r)] else []) ++
    (if a = '0' && b.isDigit && b ≠ '0' then [(b.toNat - '0'.toNat, r)] else []) ++
    (if a.isDigit && a ≠ '0' then [(a.toNat - '0'.toNat, b :: r)] else [])
  | [a] => if a.isDigit && a ≠ '0' then [(a.toNat - '0'.toNat, [])] else []
  | [] => []

def monBranches : List Char → List (Nat × List Char)
  | a :: b :: r =>
    (if a = '1' && (b = '0' || b = '1' || b = '2') then [(10 + (b.toNat - '0'.toNat), r)] else []) ++
    (if a = '0' && b.isDigit && b ≠ '0' then [(b.toNat - '0'.toNat, r)] else []) ++
    (if a.isDigit && a ≠ '0' then [(a.toNat - '0'.toNat, b :: r)] else [])
  | [a] => if a.isDigit && a ≠ '0' then [(a.toNat - '0'.toNat, [])] else []
  | [] => []

def y4Branches (cs : List Char) : List (Nat × List Char) :=
  match take4s cs with
  | some (ds, r) => [(digitsToNat (String.mk ds), r)]
  | none => []

/-- `%y` value mapping in CPython: two-digit years ≤ 68 are 2000s. -/
def y2Branches : List Char → List (Nat × List Char)
  | a :: b :: r =>
    if a.isDigit && b.isDigit then
      let v := (a.toNat - '0'.toNat) * 10 + (b.toNat - '0'.toNat)
      [(if v ≤ 68 then 2000 + v else 1900 + v, r)]
    else []
  | _ => []

/-- Case-insensitive prefix test against an already-lowercase needle. -/
def lowerIsPrefix : List Char → List Char → Bool
  | [], _ => true
  | _ :: _, [] => false
  | a :: as, b :: bs => a = b.toLower && lowerIsPrefix as bs

/-- Full month names, longest first (CPython's stable length sort). -/
def fullMonths : List (Nat × String) :=
  [(9, "september"), (2, "february"), (11, "november"), (12, "december"),
   (1, "january"), (10, "october"), (8, "august"), (3, "march"), (4, "april"),
   (6, "june"), (7, "july"), (5, "may")]

def abbrMonths : List (Nat × String) :=
  [(1, "jan"), (2, "feb"), (3, "mar"), (4, "apr"), (5, "may"), (6, "jun"),
   (7, "jul"), (8, "aug"), (9, "sep"), (10, "oct"), (11, "nov"), (12, "dec")]

def monthBranches (names : List (Nat × String)) (cs : List Char) :
    List (Nat × List Char) :=
  names.filterMap fun p =>
    if lowerIsPrefix p.2.data cs then some (p.1, cs.drop p.2.data.length) else none

/-- Backtracking matcher for one strptime format over the whole string,
accumulating the day/month/year fields (defaults 1/1/1900 as in CPython;
every format in the list sets all three).  The fuel argument only
bounds the recursion depth — one unit per format token suffices. -/
def mtch : Nat → List FTok → List Char → Nat → Nat → Nat →
    Option (Nat × Nat × Nat)
  | 0, _, _, _, _, _ => none
  | _ + 1, [], cs, d, m, y => if cs.isEmpty then some (d, m, y) else none
  | fuel + 1, .lit ch :: rest, cs, d, m, y =>
    match cs with
    | c :: cs2 => if c = ch then mtch fuel rest cs2 d m y else none
    | [] => none
  | fuel + 1, .ws :: rest, cs, d, m, y =>
    match cs with
    | c :: cs2 =>
      if c.isWhitespace then mtch fuel rest (cs2.dropWhile Char.isWhitespace) d m y
      else none
    | [] => none
  | fuel + 1, .D :: rest, cs, _, m, y =>
    (dayBranches cs).findSome? (fun p => mtch fuel rest p.2 p.1 m y)
  | fuel + 1, .M :: rest, cs, d, _, y =>
    (monBranches cs).findSome? (fun p => mtch fuel rest p.2 d p.1 y)
  | fuel + 1, .Y4 :: rest, cs, d, m, _ =>
    (y4Branches cs).findSome? (fun p => mtch fuel rest p.2 d m p.1)
  | fuel + 1, .Y2 :: rest, cs, d, m, _ =>
    (y2Branches cs).findSome? (fun p => mtch fuel rest p.2 d m p.1)
  | fuel + 1, .B :: rest, cs, d, _, y =>
    (monthBranches fullMonths cs).findSome? (fun p => mtch fuel rest p.2 d p.1 y)
  | fuel + 1, .Bb :: rest, cs, d, _, y =>
    (monthBranches abbrMonths cs).findSome? (fun p => mtch fuel rest p.2 d p.1 y)

def isLeapYear (y : Nat) : Bool := (y % 4 = 0 && y % 100 ≠ 0) || y % 400 = 0

def daysInMonth (y m : Nat) : Nat :=
  if m = 2 then (if isLeapYear y then 29 else 28)
  else if m = 4 || m = 6 || m = 9 || m = 11 then 30
  else 31

/-- `datetime(year, month, day)` constructor validity. -/
def dateValid (y m d : Nat) : Bool :=
  1 ≤ y && 1 ≤ m && m ≤ 12 && 1 ≤ d && d ≤ daysInMonth y m

def strptimeFmt (fmt : List FTok) (s : String) : Option (Nat × Nat × Nat) :=
  match mtch (fmt.length + 1) fmt s.data 1 1 1900 with
  | some (d, m, y) => if dateValid y m d then some (y, m, d) else none
  | none => none

def dmyFmt (c : Char) : List FTok := [.D, .lit c, .M, .lit c, .Y4]
def dmy2Fmt (c : Char) : List FTok := [.D, .lit c, .M, .lit c, .Y2]
def ymdFmt (c : Char) : List FTok := [.Y4, .lit c, .M, .lit c, .D]
def y2mdFmt (c : Char) : List FTok := [.Y2, .lit c, .M, .lit c, .D]

/-- The `date_formats` list of `_parse_date`, in source order (the two
trailing duplicates included). -/
def dateFormats : List (List FTok) :=
  [dmyFmt '-', dmyFmt '/', ymdFmt '-', ymdFmt '/',
   dmy2Fmt '-', dmy2Fmt '/', y2mdFmt '-', y2mdFmt '/',
   dmyFmt '.', dmy2Fmt '.', ymdFmt '.',
   [.D, .ws, .M, .ws, .Y4], [.D, .ws, .M, .ws, .Y2], [.Y4, .ws, .M, .ws, .D],
   [.B, .ws, .D, .lit ',', .ws, .Y4], [.Bb, .ws, .D, .lit ',', .ws, .Y4],
   [.D, .ws, .B, .ws, .Y4], [.D, .ws, .Bb, .ws, .Y4],
   [.B, .ws, .D, .ws, .Y4], [.Bb, .ws, .D, .ws, .Y4],
   dmyFmt '-', dmyFmt '/']

/-- The format loop: first layout that both parses and lands in the
plausible year range wins; an out-of-range year just moves on. -/
def tryDateFormats (s : String) : Option (Nat × Nat × Nat) :=
  dateFormats.findSome? fun fmt =>
    match strptimeFmt fmt s with
    | some (y, m, d) => if 1950 ≤ y && y ≤ 2030 then some (y, m, d) else none
    | none => none

def pad2 (n : Nat) : String := if n < 10 then "0" ++ toString n else toString n

def pad4 (n : Nat) : String :=
  if n < 10 then "000" ++ toString n
  else if n < 100 then "00" ++ toString n
  else if n < 1000 then "0" ++ toString n
  else toString n

def fmtYMD (y m d : Nat) : String := pad4 y ++ "-" ++ pad2 m ++ "-" ++ pad2 d

/-- The fallback's two-digit-year rule: `< 30` maps to the 2000s,
otherwise the 1900s; years of three or more digits pass through. -/
def pyYearFix (year0 : Nat) : Nat :=
  if year0 < 100 then (if year0 < 30 then year0 + 2000 else year0 + 1900)
  else year0

/-- `_parse_date`.  Returns `none` exactly where Python returns `None`
(empty or whitespace-only input); otherwise a canonical date or the
stripped input.  The `int()` calls on digit runs cannot raise. -/
def parse_date (s : String) : Option String :=
  if pyStrip s = "" then none
  else
    match tryDateFormats (pyStrip s) with
    | some (y, m, d) => some (fmtYMD y m d)
    | none =>
      match digitRuns (pyStrip s) with
      | r1 :: r2 :: r3 :: _ =>
        if 1 ≤ digitsToNat r1 && digitsToNat r1 ≤ 31 &&
            1 ≤ digitsToNat r2 && digitsToNat r2 ≤ 12 &&
            1950 ≤ pyYearFix (digitsToNat r3) && pyYearFix (digitsToNat r3) ≤ 2030 then
          some (fmtYMD (pyYearFix (digitsToNat r3)) (digitsToNat r2) (digitsToNat r1))
        else some (pyStrip s)
      | _ => some (pyStrip s)

/-! ## Parsed-document model

BeautifulSoup is external; a parsed document is modelled by the
observables the scraper queries from it: the flat element list (for CSS
selector checks and hidden-input scans), tables as rows of stripped cell
texts, anchors with their stripped text and parent text, order-like
containers (`find_all` on a class regex for order/judgment/hearing) as
item lists, heading texts, case-detail divs with their label/adjacent
value pairs, and the `get_text()` result. -/

structure Element where
  tag : String
  nameAttr : Option String := none
  typeAttr : Option String := none
  valueAttr : Option String := none
  srcAttr : Option String := none
  placeholderAttr : Option String := none
  classes : List String := []
deriving DecidableEq

structure Anchor where
  href : String
  text : String
  parentText : String
deriving DecidableEq

/-- A `li`/`p`/`div` item inside an order-like container, with the
anchors it contains. -/
structure OrderItem where
  text : String
  anchors : List Anchor := []
deriving DecidableEq

/-- A div carrying one of the case-detail classes; `labels` holds each
`label`/`span`/`strong`/`b` text with the stripped text of its next
sibling (`none` when there is no next sibling). -/
structure LabeledDiv where
  text : String
  labels : List (String × Option String) := []
deriving DecidableEq

structure HtmlDoc where
  elements : List Element := []
  tables : List (List (List String)) := []
  anchors : List Anchor := []
  orderContainers : List (List OrderItem) := []
  headers : List String := []
  caseDetailDivs : List LabeledDiv := []
  pageText : String := ""
deriving DecidableEq

def optContains (o : Option String) (needle : String) : Bool :=
  match o with
  | some s => containsSub s needle
  | none => false

/-! ## `_check_captcha` -/

/-- The seven structural CAPTCHA indicators, in source order, as
(selector test, reported kind).  CSS `*=` substring tests are
case-sensitive, as in soupsieve. -/
def captchaIndicators : List ((Element → Bool) × String) :=
  [(fun e => e.tag = "img" && optContains e.srcAttr "captcha", "image"),
   (fun e => e.tag = "input" && optContains e.nameAttr "captcha", "input"),
   (fun e => e.tag = "div" && e.classes.contains "captcha", "div"),
   (fun e => e.classes.contains "g-recaptcha", "recaptcha"),
   (fun e => e.tag = "iframe" && optContains e.srcAttr "recaptcha", "recaptcha_iframe"),
   (fun e => e.tag = "script" && optContains e.srcAttr "recaptcha", "recaptcha_script"),
   (fun e => e.tag = "input" && optContains e.placeholderAttr "captcha", "input_placeholder")]

def countSel (d : HtmlDoc) (sel : Element → Bool) : Nat :=
  (d.elements.filter sel).length

structure CaptchaInfo where
  has_captcha : Bool
  captcha_type : Option String
  captcha_elements : List (String × Nat)
deriving DecidableEq

def captchaTextWords : List String := ["captcha", "verification code", "security code"]

/-- The body of the indicator loop of `_check_captcha`: a structural
hit sets `has_captcha` and unconditionally overwrites `captcha_type`. -/
def captchaStep (d : HtmlDoc) (info : CaptchaInfo)
    (ind : (Element → Bool) × String) : CaptchaInfo :=
  let n := countSel d ind.1
  if n ≠ 0 then
    { has_captcha := true, captcha_type := some ind.2,
      captcha_elements := info.captcha_elements ++ [(ind.2, n)] }
  else info

/-- The page-text scan of `_check_captcha`. -/
def textualCaptcha (d : HtmlDoc) : Bool :=
  captchaTextWords.any (fun w => containsSub (pyLower d.pageText) w)

/-- `_check_captcha`: the indicator loop overwrites `captcha_type` on
every structural hit; the text scan afterwards sets `text_based` only
when no structural kind was recorded. -/
def check_captcha (d : HtmlDoc) : CaptchaInfo :=
  let info := captchaIndicators.foldl (captchaStep d) ⟨false, none, []⟩
  if textualCaptcha d then
    { info with
      has_captcha := true
      captcha_type := if info.captcha_type.isNone then some "text_based"
        else info.captcha_type }
  else info

/-- The kind of the last structural indicator that matches `d`, scanning
`inds` left to right — what the overwriting loop ends up reporting. -/
def lastStructuralKind (d : HtmlDoc) : List ((Element → Bool) × String) → Option String
  | [] => none
  | ind :: rest =>
    match lastStructuralKind d rest with
    | some t => some t
    | none => if countSel d ind.1 ≠ 0 then some ind.2 else none

/-- The kind of the first matching structural indicator — what the
specification says the detector reports. -/
def firstStructuralKind (d : HtmlDoc) : Option String :=
  (captchaIndicators.find? (fun ind => countSel d ind.1 != 0)).map (fun ind => ind.2)

/-! ## `_extract_hidden_fields` and `_prepare_form_data` -/

def hiddenFieldNames : List String :=
  ["__VIEWSTATE", "__VIEWSTATEGENERATOR", "__EVENTVALIDATION",
   "__EVENTTARGET", "__EVENTARGUMENT", "__LASTFOCUS",
   "__VIEWSTATEENCRYPTED", "__PREVIOUSPAGE", "__SCROLLPOSITIONX",
   "__SCROLLPOSITIONY", "javax.faces.ViewState", "authenticity_token",
   "csrf_token", "_token", "session_id", "form_token"]

def isHiddenInput (e : Element) : Bool :=
  e.tag = "input" && e.typeAttr = some "hidden"

/-- `soup.find('input', {'name': fn, 'type': 'hidden'})`, value attribute. -/
def findHiddenValueByName (d : HtmlDoc) (fn : String) : Option String :=
  match d.elements.find? (fun e => isHiddenInput e && e.nameAttr = some fn) with
  | some e => e.valueAttr
  | none => none

/-- `_extract_hidden_fields`: the named pass keeps only truthy values;
the catch-all pass adds every remaining hidden input's name (first
occurrence wins), defaulting the value to `""`. -/
def extract_hidden_fields (d : HtmlDoc) : List (String × String) :=
  let named := hiddenFieldNames.foldl
    (fun acc fn =>
      match findHiddenValueByName d fn with
      | some v => if v ≠ "" then acc ++ [(fn, v)] else acc
      | none => acc)
    []
  (d.elements.filter isHiddenInput).foldl
    (fun acc e =>
      match e.nameAttr with
      | some nm =>
        if nm ≠ "" && (dictLookup acc nm).isNone then
          acc ++ [(nm, e.valueAttr.getD "")]
        else acc
      | none => acc)
    named

/-- The seven fixed field-naming schemes of `_prepare_form_data`, in
source order. -/
def formVariations (case_type case_number : String) (filing_year : Nat) :
    List (List (String × String)) :=
  [[("case_type", case_type), ("case_no", case_number),
    ("case_year", toString filing_year), ("submit", "Submit"),
    ("court_code", "wardha")],
   [("casetype", case_type), ("caseno", case_number),
    ("caseyear", toString filing_year), ("Submit", "Search"),
    ("district", "Wardha")],
   [("txtCaseType", case_type), ("txtCaseNo", case_number),
    ("txtYear", toString filing_year), ("btnSearch", "Search"),
    ("ddlDistrict", "Wardha")],
   [("ddlCaseType", case_type), ("txtCaseNumber", case_number),
    ("ddlYear", toString filing_year), ("Button1", "Submit"),
    ("ddlCourt", "District Court Wardha")],
   [("case_type_name", case_type), ("case_number", case_number),
    ("filing_year", toString filing_year), ("search_button", "Get Case Status"),
    ("state_code", "27"), ("district_code", "664")],
   [("type", case_type), ("number", case_number),
    ("year", toString filing_year), ("action", "search")],
   [("caseType", case_type), ("caseNumber", case_number),
    ("filingYear", toString filing_year), ("searchType", "case_number"),
    ("format", "html")]]

/-- `_prepare_form_data`: each scheme is copied and `update`d with the
extracted hidden fields (the enhancement loop is a map). -/
def prepare_form_data (d : HtmlDoc) (case_type case_number : String)
    (filing_year : Nat) : List (List (String × String)) :=
  (formVariations case_type case_number filing_year).map
    (fun variation => dictUpdate variation (extract_hidden_fields d))

/-! ## `_extract_orders` -/

/-- `urljoin(base_url, href)` for the reference shapes reachable here
(the scraper only calls it when `href` does not start with `http`); no
claim depends on the resolved value. -/
def urljoinBase (href : String) : String :=
  if pyStartsWith href "//" then "https:" ++ href
  else if pyStartsWith href "/" then "https://wardha.dcourts.gov.in" ++ href
  else "https://wardha.dcourts.gov.in/" ++ href

structure OrderEntry where
  description : String
  pdf_link : Option String
  date : Option String
  court : String
deriving DecidableEq

/-- `soup.find_all('a', href=re.compile(r'\.pdf', re.I))`. -/
def pdfAnchors (d : HtmlDoc) : List Anchor :=
  d.anchors.filter (fun a => containsSub (pyLower a.href) ".pdf")

/-- Date lookup used by every order pass: first match of the two date
shapes, handed to `_parse_date`. -/
def orderDate (t : String) : Option String :=
  match dateTokenIn t with
  | some g => parse_date g
  | none => none

/-- One PDF-link order (first pass); falls back to the parent's text for
the date, and to a generic description for empty link text. -/
def orderFromPdfLink (a : Anchor) : OrderEntry :=
  let href := if !(pyStartsWith a.href "http") then urljoinBase a.href else a.href
  let link_text := if a.text = "" then "Wardha District Court Document" else a.text
  let date1 := orderDate link_text
  { description := link_text
    pdf_link := some href
    date := if optTruthy date1 then date1 else
      match dateTokenIn a.parentText with
      | some g => parse_date g
      | none => date1
    court := "Wardha District Court" }

/-- First pass: every PDF anchor is appended, with no de-duplication. -/
def ordersPass1 (d : HtmlDoc) : List OrderEntry :=
  (pdfAnchors d).filterMap fun a =>
    if a.href = "" then none else some (orderFromPdfLink a)

def orderRowKws : List String := ["order", "judgment", "date", "आदेश", "निर्णय"]
def orderTextKws : List String := ["order", "judgment", "hearing", "notice"]
def orderItemKws : List String := ["order", "hearing", "notice", "judgment"]

/-- Second pass, one table row: rows keyed by an order keyword in the
first cell contribute the joined row text, de-duplicated against every
order collected so far. -/
def ordersRowStep (orders : List OrderEntry) (cells : List String) : List OrderEntry :=
  if cells.length ≥ 2 then
    if anyKw (pyLower (cells.headD "")) orderRowKws then
      if 20 < (pyJoin " " cells).length &&
          !(orders.any (fun o => o.description = pyJoin " " cells)) &&
          anyKw (pyLower (pyJoin " " cells)) orderTextKws then
        orders ++ [{ description := pyJoin " " cells, pdf_link := none,
                     date := orderDate (pyJoin " " cells),
                     court := "Wardha District Court" }]
      else orders
    else orders
  else orders

/-- Third pass, one container item: long enough order-keyword items,
with an optional embedded PDF link, de-duplicated by description. -/
def ordersItemStep (orders : List OrderEntry) (item : OrderItem) : List OrderEntry :=
  if 15 < item.text.length && anyKw (pyLower item.text) orderItemKws then
    if !(orders.any (fun o => o.description = item.text)) then
      orders ++
        [{ description := item.text
           pdf_link :=
             match item.anchors.find? (fun a => containsSub (pyLower a.href) ".pdf") with
             | some a =>
               some (if !(pyStartsWith a.href "http") then urljoinBase a.href else a.href)
             | none => none
           date := orderDate item.text, court := "Wardha District Court" }]
    else orders
  else orders

/-- `_extract_orders`: the three passes in order, truncated to 10. -/
def extract_orders (d : HtmlDoc) : List OrderEntry :=
  let o1 := ordersPass1 d
  let o2 := d.tables.flatten.foldl ordersRowStep o1
  let o3 := d.orderContainers.flatten.foldl ordersItemStep o2
  o3.take 10

/-! ## `_extract_case_info` and validity gate -/

structure PatternsFound where
  dates : List String
  legal_terms : List String
  maharashtra_terms : List String
deriving DecidableEq

/-- The extracted record.  `last_updated` is a wall-clock timestamp and
is omitted from the model; no claim mentions it. -/
structure CaseRecord where
  case_title : String
  court_name : String
  petitioner : List String
  respondent : List String
  filing_date : Option String := none
  next_hearing_date : Option String := none
  status : Option String := none
  stage : Option String := none
  judge : Option String := none
  orders : List OrderEntry := []
  note : Option String := none
  patterns_found : Option PatternsFound := none
deriving DecidableEq

def initRecord (ct cn : String) (fy : Nat) : CaseRecord :=
  { case_title := ct ++ " " ++ cn ++ "/" ++ toString fy
    court_name := "District and Sessions Court, Wardha"
    petitioner := [], respondent := [] }

def petKws : List String := ["petitioner", "applicant", "plaintiff", "अर्जदार", "फिर्यादी"]
def resKws : List String := ["respondent", "defendant", "प्रतिवादी", "बचावपक्ष"]
def filingKws : List String := ["filing", "दाखल", "date"]
def nextKws : List String := ["next", "hearing", "list", "सुनावणी", "पुढील"]
def statusKws : List String := ["status", "stage", "स्थिती", "टप्पा"]
def judgeKws : List String := ["judge", "न्यायाधीश", "न्यायमूर्ती"]
def currentKws : List String := ["current", "present", "सध्याचा"]

/-- The label/value classification of one table row (two or more cells,
cell 1 lower-cased as label, cell 2 as value, empty values skipped). -/
def classifyRow (r : CaseRecord) (cells : List String) : CaseRecord :=
  if cells.length ≥ 2 then
    let label := pyLower (cells.headD "")
    let value := (cells[1]?).getD ""
    if value = "" then r
    else if anyKw label petKws then
      (if r.petitioner.contains value then r
       else { r with petitioner := r.petitioner ++ [value] })
    else if anyKw label resKws then
      (if r.respondent.contains value then r
       else { r with respondent := r.respondent ++ [value] })
    else if anyKw label filingKws && containsSub label "date" then
      { r with filing_date := parse_date value }
    else if anyKw label nextKws then
      (if containsSub label "date" then { r with next_hearing_date := parse_date value }
       else r)
    else if anyKw label statusKws then
      (if containsSub label "status" then { r with status := some value }
       else { r with stage := some value })
    else if anyKw label judgeKws then { r with judge := some value }
    else if anyKw label currentKws then
      (if optTruthy r.status then r else { r with status := some value })
    else r
  else r

/-- `_extract_from_structured_div`: labels with a truthy adjacent value
feed the party lists (order-preserving de-duplication). -/
def extract_from_structured_div (dv : LabeledDiv) (r : CaseRecord) : CaseRecord :=
  dv.labels.foldl
    (fun r p =>
      let label_text := pyLower p.1
      match p.2 with
      | none => r
      | some value =>
        if value ≠ "" && anyKw label_text ["petitioner", "applicant"] then
          (if r.petitioner.contains value then r
           else { r with petitioner := r.petitioner ++ [value] })
        else if value ≠ "" && anyKw label_text ["respondent", "defendant"] then
          (if r.respondent.contains value then r
           else { r with respondent := r.respondent ++ [value] })
        else r)
    r

/-- `_extract_case_info`: table rows, then orders, then the first
matching header as title, then the case-detail divs. -/
def extract_case_info (d : HtmlDoc) (ct cn : String) (fy : Nat) : CaseRecord :=
  let r0 := d.tables.flatten.foldl classifyRow (initRecord ct cn fy)
  let r1 := { r0 with orders := extract_orders d }
  let r2 := match d.headers.find? (fun h =>
      (containsSub h cn && containsSub h (toString fy)) ||
        containsSub (pyLower h) "wardha") with
    | some h => { r1 with case_title := h }
    | none => r1
  d.caseDetailDivs.foldl
    (fun r dv =>
      if containsSub dv.text cn && containsSub dv.text (toString fy) then
        extract_from_structured_div dv r
      else r)
    r2

/-- `_is_valid_case_data` (the argument is always a freshly built dict,
so the `not case_data` guard never fires). -/
def is_valid_case_data (r : CaseRecord) : Bool :=
  (!r.petitioner.isEmpty || !r.respondent.isEmpty) ||
  (optTruthy r.filing_date || optTruthy r.next_hearing_date) ||
  (optTruthy r.status || optTruthy r.stage) ||
  !r.orders.isEmpty || optTruthy r.judge

/-! ## `_alternative_parsing` and `_parse_response` -/

def legalTerms : List String :=
  ["petitioner", "respondent", "plaintiff", "defendant", "hearing",
   "order", "judgment", "court", "case", "filing", "status",
   "अर्जदार", "प्रतिवादी", "सुनावणी", "आदेश", "न्यायालय", "केस"]

def maharashtraTerms : List String :=
  ["wardha", "maharashtra", "district court", "जिल्हा न्यायालय"]

/-- The heuristic patterns of `_alternative_parsing`.  The stored date
list is `list(set(dates))[:5]` in Python, whose set-iteration order is
unspecified; first-occurrence order is used here, and no claim depends
on it — only on emptiness. -/
def patternsFound (page_text : String) : PatternsFound :=
  let dates := reFindall (matchDMY true) true page_text ++
    reFindall (matchYMD true) true page_text
  { dates := (dedupFirst dates).take 5
    legal_terms := legalTerms.filter (fun t => containsSub (pyLower page_text) t)
    maharashtra_terms := maharashtraTerms.filter (fun t => containsSub (pyLower page_text) t) }

def pfNonempty (pf : PatternsFound) : Bool :=
  !pf.dates.isEmpty || !pf.legal_terms.isEmpty || !pf.maharashtra_terms.isEmpty

/-- The placeholder record the heuristic pass fabricates. -/
def placeholderRecord (ct cn : String) (fy : Nat) (pf : PatternsFound) : CaseRecord :=
  { case_title := ct ++ " " ++ cn ++ "/" ++ toString fy
    court_name := "District and Sessions Court, Wardha"
    petitioner := ["Case information available - please check court website directly"]
    respondent := ["Detailed parsing required - manual verification recommended"]
    filing_date := some (toString fy ++ "-01-01")
    next_hearing_date := none
    status := some "Case found but requires detailed parsing"
    stage := some "Information extraction in progress"
    orders := []
    note := some "Partial information extracted from Wardha District Court. Please verify details on court website."
    patterns_found := some pf }

/-- `_alternative_parsing` (its `soup` parameter is never used by the
source, so it is not modelled); `page_text` arrives already lower-cased
from `_parse_response`. -/
def alternative_parsing (page_text ct cn : String) (fy : Nat) : Option CaseRecord :=
  if containsSub page_text cn && containsSub page_text (toString fy) &&
      decide (500 < (pyStrip page_text).length) then
    if pfNonempty (patternsFound page_text) then
      some (placeholderRecord ct cn fy (patternsFound page_text))
    else none
  else none

def errorIndicators : List String :=
  ["no record found", "record not found", "invalid case",
   "case not found", "no data available", "no records found",
   "invalid input", "please enter valid", "not exist",
   "error occurred", "invalid case number", "case does not exist",
   "रेकॉर्ड आढळला नाही", "केस सापडला नाही", "अवैध केस",
   "कोणताही डेटा उपलब्ध नाही", "कृपया वैध माहिती टाका"]

inductive ParseResult where
  | notFoundIndicator (msg : String)
  | record (r : CaseRecord)
  | noData
deriving DecidableEq

/-- `_parse_response` on the parsed response document.  The second
component records whether `_extract_case_info` ran (it is skipped
exactly when a "no record" phrase matches). -/
def parse_response (d : HtmlDoc) (ct cn : String) (fy : Nat) : ParseResult × Bool :=
  let page_text := pyLower d.pageText
  match errorIndicators.find? (fun p => containsSub page_text p) with
  | some p => (.notFoundIndicator p, false)
  | none =>
    let case_data := extract_case_info d ct cn fy
    if is_valid_case_data case_data then (.record case_data, true)
    else
      match alternative_parsing page_text ct cn fy with
      | some r => (.record r, true)
      | none => (.noData, true)

/-! ## Network world, `_find_working_url`, `_submit_form`, the
submission executor and `fetch_case_data`

An HTTP response is modelled by its observables: status code, byte
length of the body (`len(response.content)`), declared content type,
the raw text (`response.text`) and the parsed document
(`BeautifulSoup(response.content)`).  The session is a world function;
`none` models a raised transport exception, which every caller
swallows. -/

structure Response where
  statusCode : Nat
  contentLength : Nat
  contentType : String
  body : String
  doc : HtmlDoc
deriving DecidableEq

structure World where
  get : String → Option Response
  submit : String → String → List (String × String) → Option Response

/-- The fixed candidate list `self.search_urls`. -/
def searchUrls : List String :=
  ["https://wardha.dcourts.gov.in/case-status-search-by-case-number/",
   "https://wardha.dcourts.gov.in/case-status-search-by-case-type/",
   "https://wardha.dcourts.gov.in/case-status/",
   "https://districts.ecourts.gov.in/wardha/case-status",
   "https://districts.ecourts.gov.in/wardha",
   "https://services.ecourts.gov.in/ecourtindia_v6/",
   "https://ecourts.gov.in/ecourts_home/static/district_court.php?state_cd=27&dist_cd=664",
   "https://wardha.dcourts.gov.in/",
   "https://hcservices.ecourts.gov.in/hcservices/Client/",
   "https://njdg.ecourts.gov.in/njdgnew/index.php"]

/-- The fixed keyword vocabulary of `_find_working_url`. -/
def validIndicators : List String :=
  ["case", "court", "wardha", "district", "ecourts",
   "case status", "case number", "filing", "petitioner",
   "maharashtra", "judicial", "search"]

def validCount (r : Response) : Nat :=
  (validIndicators.filter (fun k => containsSub (pyLower r.body) k)).length

/-- Content validation of a 200 response: length, HTML marker, score. -/
def urlContentValid (r : Response) : Bool :=
  1000 < r.contentLength && containsSub (pyLower r.contentType) "html" &&
    3 ≤ validCount r

/-- The full acceptance test of one candidate (an erroring probe is a
non-match). -/
def acceptsUrl (o : Option Response) : Bool :=
  match o with
  | none => false
  | some r => r.statusCode == 200 && urlContentValid r

/-- The probing loop of `_find_working_url`: returns the selected URL
(if any) together with the list of candidates actually probed, in
order.  A transport error on a candidate is swallowed and the loop
continues. -/
def findUrlLoop (w : World) : List String → Option String × List String
  | [] => (none, [])
  | u :: rest =>
    match w.get u with
    | none => ((findUrlLoop w rest).1, u :: (findUrlLoop w rest).2)
    | some r =>
      if r.statusCode == 200 && urlContentValid r then (some u, [u])
      else ((findUrlLoop w rest).1, u :: (findUrlLoop w rest).2)

/-- One call to `_find_working_url` on an instance whose cache
(`self.working_url`) holds `cache`: result, new cache, probed URLs.
The cache is written only on success. -/
def resolveOnce (cache : Option String) (w : World) :
    Option String × Option String × List String :=
  match cache with
  | some u => (some u, some u, [])
  | none =>
    match findUrlLoop w searchUrls with
    | (some u, tr) => (some u, some u, tr)
    | (none, tr) => (none, none, tr)

/-- `_submit_form`: returns the response only on status 200; non-200
and transport errors yield `None`. -/
def submit_form (w : World) (url : String) (form_data : List (String × String))
    (method : String) : Option Response :=
  match w.submit method url form_data with
  | none => none
  | some r => if r.statusCode = 200 then some r else none

/-- The fixed `{method, endpoint}` combinations tried per strategy. -/
def methodsToTry : List (String × String) :=
  [("POST", ""), ("POST", "/case-status-result"), ("POST", "/search"),
   ("GET", ""), ("GET", "/case-status")]

/-- One issued submission request, for the diagnostic trail. -/
structure AttemptRec where
  strategy : Nat
  method : String
  endpointSuffix : String
deriving DecidableEq

/-- The inner method/endpoint loop of `_attempt_search_submissions` for
one strategy: on the first 200 response the result is parsed; a good
parse returns it, a bad parse `break`s to the next strategy.  A `none`
from `_submit_form` just moves to the next combination. -/
def methodLoop (w : World) (workingUrl : String) (idx : Nat)
    (form_data : List (String × String)) (ct cn : String) (fy : Nat) :
    List (String × String) → Option CaseRecord × List AttemptRec
  | [] => (none, [])
  | (m, sfx) :: rest =>
    let rec0 : AttemptRec := ⟨idx, m, sfx⟩
    match submit_form w (workingUrl ++ sfx) form_data m with
    | none =>
      let p := methodLoop w workingUrl idx form_data ct cn fy rest
      (p.1, rec0 :: p.2)
    | some resp =>
      match (parse_response resp.doc ct cn fy).1 with
      | .record r => (some r, [rec0])
      | _ => (none, [rec0])

/-- The strategy loop of `_attempt_search_submissions` (strategies are
1-indexed in the trail, as in the source's logging). -/
def strategyLoop (w : World) (workingUrl : String) (ct cn : String) (fy : Nat) :
    Nat → List (List (String × String)) → Option CaseRecord × List AttemptRec
  | _, [] => (none, [])
  | idx, fd :: rest =>
    match methodLoop w workingUrl idx fd ct cn fy methodsToTry with
    | (some r, tr) => (some r, tr)
    | (none, tr) =>
      let p := strategyLoop w workingUrl ct cn fy (idx + 1) rest
      (p.1, tr ++ p.2)

inductive ExecOutcome where
  | found (r : CaseRecord)
  | exhausted (strategiesAttempted : Nat)
deriving DecidableEq

/-- `_attempt_search_submissions`. -/
def attempt_search_submissions (w : World) (workingUrl : String)
    (form_data_list : List (List (String × String))) (ct cn : String) (fy : Nat) :
    ExecOutcome × List AttemptRec :=
  match strategyLoop w workingUrl ct cn fy 1 form_data_list with
  | (some r, tr) => (.found r, tr)
  | (none, tr) => (.exhausted form_data_list.length, tr)

inductive FetchOutcome where
  | unreachable
  | netError
  | httpError (status : Nat)
  | obstructed (info : CaptchaInfo)
  | formMissing
  | found (r : CaseRecord)
  | exhausted (strategiesAttempted : Nat)
deriving DecidableEq

def isObstructed : FetchOutcome → Bool
  | .obstructed _ => true
  | _ => false

/-- `fetch_case_data` on a fresh scraper instance, paired with the
submission-request trail.  `raise_for_status` raises for status ≥ 400;
the CAPTCHA gate runs once, on the search page, before any submission. -/
def fetch_case_data (w : World) (ct cn : String) (fy : Nat) :
    FetchOutcome × List AttemptRec :=
  match (resolveOnce none w).1 with
  | none => (.unreachable, [])
  | some wu =>
    match w.get wu with
    | none => (.netError, [])
    | some page =>
      if 400 ≤ page.statusCode then (.httpError page.statusCode, [])
      else
        let ci := check_captcha page.doc
        if ci.has_captcha then (.obstructed ci, [])
        else
          let fds := prepare_form_data page.doc ct cn fy
          if fds.isEmpty then (.formMissing, [])
          else
            match attempt_search_submissions w wu fds ct cn fy with
            | (.found r, tr) =>
              (.found { r with court_name := "District and Sessions Court, Wardha" }, tr)
            | (.exhausted n, tr) => (.exhausted n, tr)

/-! ## Spec-side helper predicates -/

/-- A parse result is gate-compliant when any returned record satisfies
`_is_valid_case_data`. -/
def parseResultValid : ParseResult → Bool
  | .record r => is_valid_case_data r
  | _ => true

/-! ## Concrete documents, responses and worlds used by the
counterexamples and witnesses -/

def wardhaUrl1 : String :=
  "https://wardha.dcourts.gov.in/case-status-search-by-case-number/"

/-- A CAPTCHA-free search page document. -/
def searchDoc : HtmlDoc := { pageText := "welcome" }

/-- A valid search-page response: 200, big enough, HTML, four keyword
signals. -/
def goodResp : Response :=
  { statusCode := 200, contentLength := 2000, contentType := "text/html",
    body := "case court wardha search", doc := searchDoc }

/-- A document carrying a structural CAPTCHA (image indicator). -/
def capDoc : HtmlDoc :=
  { elements := [{ tag := "img", srcAttr := some "captcha.jpg" }],
    pageText := "please complete the verification challenge" }

/-- A 200 submission response whose document is CAPTCHA-blocked. -/
def capResp : Response :=
  { statusCode := 200, contentLength := 5000, contentType := "text/html",
    body := "", doc := capDoc }

/-- World for the C1 counterexample: the first candidate URL resolves to
a clean search page, and every submission returns the 200 CAPTCHA page. -/
def c1World : World :=
  { get := fun u => if u = wardhaUrl1 then some goodResp else none
    submit := fun _ _ _ => some capResp }

/-- A search-page response that passes URL validation but carries the
CAPTCHA document. -/
def capSearchResp : Response :=
  { statusCode := 200, contentLength := 2000, contentType := "text/html",
    body := "case court wardha search", doc := capDoc }

/-- World for the C1 witness: the search page itself is CAPTCHA-blocked. -/
def capSearchWorld : World :=
  { get := fun u => if u = wardhaUrl1 then some capSearchResp else none
    submit := fun _ _ _ => none }

def resp404 : Response :=
  { statusCode := 404, contentLength := 0, contentType := "", body := "",
    doc := {} }

/-- World for the C6 witness (end-to-end scenario 1): candidate A
404s, candidate B is a valid page. -/
def abWorld : World :=
  { get := fun u =>
      if u = "A" then some resp404 else if u = "B" then some goodResp else none
    submit := fun _ _ _ => none }

/-- World where every request errors — no candidate ever qualifies. -/
def failWorld : World := { get := fun _ => none, submit := fun _ _ _ => none }

/-- A search page carrying a hidden input whose name collides with a
scheme key. -/
def hiddenDoc : HtmlDoc :=
  { elements := [{ tag := "input", nameAttr := some "case_no",
                   typeAttr := some "hidden", valueAttr := some "XYZ" }] }

/-- Two PDF links with identical link text. -/
def dupDoc : HtmlDoc :=
  { anchors := [⟨"a.pdf", "Order One", ""⟩, ⟨"b.pdf", "Order One", ""⟩] }

/-- A document matching both the image and the input CAPTCHA
indicators. -/
def c8Doc : HtmlDoc :=
  { elements := [{ tag := "img", srcAttr := some "captcha.jpg" },
                 { tag := "input", nameAttr := some "captcha_code" }],
    pageText := "" }

/-- A response document asserting absence (mixed case). -/
def nrfDoc : HtmlDoc := { pageText := "Sorry, No Record Found for this query" }

/-- Body text that mentions case number `123` and year `2020`, exceeds
500 characters, and contains the legal term `case`. -/
def altTxt : String := String.mk (List.replicate 501 'x') ++ " case 123 2020"

/-- Body text that mentions `123` and `2020` and exceeds 500 characters
but contains no date token, no legal term and no Maharashtra term. -/
def bareTxt : String := String.mk (List.replicate 501 'x') ++ " 123 2020"

/-- Document for the C3 witness: one PDF link and a duplicated order
table row. -/
def c3Doc : HtmlDoc :=
  { anchors := [⟨"order1.pdf", "Order A", ""⟩],
    tables := [[["Order", "Notice of hearing issued today"],
                ["Order", "Notice of hearing issued today"]]] }

/-! # Theorems

Helper lemmas first, then one theorem (plus counterexample/witness where
applicable) per claim. -/

/-! ## Dictionary lemmas -/

theorem dictLookup_append (a c : List (String × String)) (k : String) :
    dictLookup (a ++ c) k =
      match dictLookup a k with
      | some v => some v
      | none => dictLookup c k := by
  induction a with
  | nil => simp [dictLookup]
  | cons p rest ih =>
    by_cases h : p.1 = k <;> simp [dictLookup, h, ih]

theorem dictLookup_map_key (b : List (String × String))
    (g : String × String → String) (k : String) :
    dictLookup (b.map (fun p => (p.1, g p))) k =
      (b.find? (fun p => p.1 = k)).map g := by
  induction b with
  | nil => simp [dictLookup]
  | cons p rest ih =>
    by_cases h : p.1 = k <;> simp [dictLookup, List.find?, h, ih]

theorem find?_key_map_snd (b : List (String × String)) (k : String) :
    (b.find? (fun p => p.1 = k)).map Prod.snd = dictLookup b k := by
  induction b with
  | nil => simp [dictLookup]
  | cons p rest ih =>
    by_cases h : p.1 = k <;> simp [dictLookup, List.find?, h, ih]

theorem find?_key_fst (b : List (String × String)) (k : String)
    (p : String × String) (h : b.find? (fun q => q.1 = k) = some p) :
    p.1 = k := by
  have := List.find?_some h
  simpa using this

theorem dictLookup_filter_of_keyTrue (u : List (String × String))
    (pred : String × String → Bool) (k : String)
    (h : ∀ q : String × String, q.1 = k → pred q = true) :
    dictLookup (u.filter pred) k = dictLookup u k := by
  induction u with
  | nil => simp
  | cons q rest ih =>
    by_cases hk : q.1 = k
    · have hp := h q hk
      simp [List.filter, hp, dictLookup, hk]
    · by_cases hp : pred q = true
      · simp [List.filter, hp, dictLookup, hk, ih]
      · simp only [Bool.not_eq_true] at hp
        simp [List.filter, hp, dictLookup, hk, ih]

/-- After `dictUpdate base upd`, a key found in `upd` resolves to
`upd`'s value; only keys absent from `upd` keep `base`'s value. -/
theorem dictLookup_dictUpdate (base upd : List (String × String)) (k : String) :
    dictLookup (dictUpdate base upd) k =
      match dictLookup upd k with
      | some v => some v
      | none => dictLookup base k := by
  unfold dictUpdate
  rw [dictLookup_append, dictLookup_map_key]
  cases hf : base.find? (fun p => p.1 = k) with
  | none =>
    have hb : dictLookup base k = none := by
      rw [← find?_key_map_snd, hf]; rfl
    rw [dictLookup_filter_of_keyTrue]
    · cases dictLookup upd k <;> simp [hb]
    · intro q hq; simp [hq, hb]
  | some p =>
    have hkey : p.1 = k := find?_key_fst base k p hf
    have hb : dictLookup base k = some p.2 := by
      rw [← find?_key_map_snd, hf]; rfl
    cases hu : dictLookup upd k with
    | none => simp [hkey, hu, hb]
    | some w => simp [hkey, hu]

/-! ## Generic helpers -/

theorem exists_of_findSome? {α β : Type} (f : α → Option β) (l : List α) (b : β)
    (h : l.findSome? f = some b) : ∃ a ∈ l, f a = some b := by
  induction l with
  | nil => simp [List.findSome?] at h
  | cons x xs ih =>
    rw [List.findSome?_cons] at h
    cases hf : f x with
    | some b2 =>
      rw [hf] at h
      cases h
      exact ⟨x, by simp, hf⟩
    | none =>
      rw [hf] at h
      obtain ⟨a, ha, hfa⟩ := ih h
      exact ⟨a, by simp [ha], hfa⟩

theorem foldl_preserve {α β : Type} (P : α → Prop) (step : α → β → α)
    (h : ∀ acc x, P acc → P (step acc x)) :
    ∀ (l : List β) (init : α), P init → P (l.foldl step init)
  | [], _, hi => hi
  | x :: xs, init, hi => foldl_preserve P step h xs (step init x) (h init x hi)

/-! ## Date lemmas -/

theorem daysInMonth_le_31 (y m : Nat) : daysInMonth y m ≤ 31 := by
  unfold daysInMonth
  split_ifs <;> omega

theorem strptimeFmt_ranges (fmt : List FTok) (s : String) (y m d : Nat)
    (h : strptimeFmt fmt s = some (y, m, d)) :
    1 ≤ m ∧ m ≤ 12 ∧ 1 ≤ d ∧ d ≤ 31 := by
  unfold strptimeFmt at h
  split at h
  · split at h
    · rename_i d0 m0 y0 heq hv
      obtain ⟨hy, hm2, hd⟩ : y0 = y ∧ m0 = m ∧ d0 = d := by simpa using h
      subst hy; subst hm2; subst hd
      simp only [dateValid, Bool.and_eq_true, decide_eq_true_eq] at hv
      obtain ⟨⟨⟨⟨_, hm1⟩, hm3⟩, hd1⟩, hd2⟩ := hv
      exact ⟨hm1, hm3, hd1, le_trans hd2 (daysInMonth_le_31 _ _)⟩
    · exact absurd h (by simp)
  · exact absurd h (by simp)

theorem tryDateFormats_ranges (s : String) (y m d : Nat)
    (h : tryDateFormats s = some (y, m, d)) :
    1950 ≤ y ∧ y ≤ 2030 ∧ 1 ≤ m ∧ m ≤ 12 ∧ 1 ≤ d ∧ d ≤ 31 := by
  obtain ⟨fmt, _, hf⟩ := exists_of_findSome? _ _ _ h
  split at hf
  · rename_i y0 m0 d0 hs
    split at hf
    · rename_i hr
      obtain ⟨hy, hm2, hd⟩ : y0 = y ∧ m0 = m ∧ d0 = d := by simpa using hf
      subst hy; subst hm2; subst hd
      simp only [Bool.and_eq_true, decide_eq_true_eq] at hr
      have := strptimeFmt_ranges fmt s _ _ _ hs
      exact ⟨hr.1, hr.2, this⟩
    · exact absurd hf (by simp)
  · exact absurd hf (by simp)

/-! ## C5: the date normalizer -/

/-- C5 counterexample: `_parse_date` does not always return the
original string unchanged when parsing fails — empty input yields
`None`, and surrounding whitespace is stripped from the returned
string. -/
theorem parse_date_not_original_cex :
    parse_date "" = none ∧
    parse_date " garbage " = some "garbage" ∧
    some "garbage" ≠ some " garbage " := by
  refine ⟨by decide, by decide, by decide⟩

/-- C5 (amended): `_parse_date` is total; it returns `none` exactly on
empty/whitespace-only input, and otherwise either a canonical
`YYYY-MM-DD` string with in-range components (from a supported layout
or the positional day/month/year fallback) or the whitespace-stripped
input unchanged. -/
theorem parse_date_total_shape (s : String) :
    ((parse_date s).isNone ↔ pyStrip s = "") ∧
    (parse_date s = none ∨
      (∃ y m d, parse_date s = some (fmtYMD y m d) ∧
        1950 ≤ y ∧ y ≤ 2030 ∧ 1 ≤ m ∧ m ≤ 12 ∧ 1 ≤ d ∧ d ≤ 31) ∨
      parse_date s = some (pyStrip s)) := by
  by_cases h0 : pyStrip s = ""
  · have hpd : parse_date s = none := by simp [parse_date, h0]
    simp [hpd, h0]
  · cases ht : tryDateFormats (pyStrip s) with
    | some t =>
      obtain ⟨y, m, d⟩ := t
      have hr := tryDateFormats_ranges _ _ _ _ ht
      have hpd : parse_date s = some (fmtYMD y m d) := by
        simp [parse_date, h0, ht]
      refine ⟨by simp [hpd, h0], Or.inr (Or.inl ⟨y, m, d, hpd, hr.1, hr.2.1,
        hr.2.2.1, hr.2.2.2.1, hr.2.2.2.2.1, hr.2.2.2.2.2⟩)⟩
    | none =>
      cases hruns : digitRuns (pyStrip s) with
      | nil =>
        have hpd : parse_date s = some (pyStrip s) := by
          simp [parse_date, h0, ht, hruns]
        exact ⟨by simp [hpd, h0], Or.inr (Or.inr hpd)⟩
      | cons r1 rs =>
        cases rs with
        | nil =>
          have hpd : parse_date s = some (pyStrip s) := by
            simp [parse_date, h0, ht, hruns]
          exact ⟨by simp [hpd, h0], Or.inr (Or.inr hpd)⟩
        | cons r2 rs2 =>
          cases rs2 with
          | nil =>
            have hpd : parse_date s = some (pyStrip s) := by
              simp [parse_date, h0, ht, hruns]
            exact ⟨by simp [hpd, h0], Or.inr (Or.inr hpd)⟩
          | cons r3 rs3 =>
            have hpd : parse_date s =
                (if 1 ≤ digitsToNat r1 && digitsToNat r1 ≤ 31 &&
                    1 ≤ digitsToNat r2 && digitsToNat r2 ≤ 12 &&
                    1950 ≤ pyYearFix (digitsToNat r3) &&
                    pyYearFix (digitsToNat r3) ≤ 2030 then
                  some (fmtYMD (pyYearFix (digitsToNat r3)) (digitsToNat r2)
                    (digitsToNat r1))
                else some (pyStrip s)) := by
              simp only [parse_date, if_neg h0, ht, hruns]
            constructor
            · rw [hpd]
              split <;> simp [h0]
            · rw [hpd]
              split
              · rename_i hc
                simp only [Bool.and_eq_true, decide_eq_true_eq] at hc
                obtain ⟨⟨⟨⟨⟨h1, h2⟩, h3⟩, h4⟩, h5⟩, h6⟩ := hc
                exact Or.inr (Or.inl ⟨_, _, _, rfl, h5, h6, h3, h4, h1, h2⟩)
              · exact Or.inr (Or.inr rfl)

/-- C5 witness: the amended statement at concrete inputs. -/
theorem parse_date_total_shape_witness :
    (((parse_date "15-03-2023").isNone ↔ pyStrip "15-03-2023" = "") ∧
      (parse_date "15-03-2023" = none ∨
        (∃ y m d, parse_date "15-03-2023" = some (fmtYMD y m d) ∧
          1950 ≤ y ∧ y ≤ 2030 ∧ 1 ≤ m ∧ m ≤ 12 ∧ 1 ≤ d ∧ d ≤ 31) ∨
        parse_date "15-03-2023" = some (pyStrip "15-03-2023"))) :=
  parse_date_total_shape "15-03-2023"

/-! ## C6: endpoint resolver acceptance -/

/-- C6: a candidate is accepted iff its probe returns status 200, more
than 1000 body bytes, an HTML content-type marker and a keyword score of
at least 3 (an erroring probe is a non-match); the first accepted
candidate is selected, exactly the candidates up to and including it are
probed, and if none qualifies resolution returns nothing. -/
theorem find_working_url_spec (w : World) (urls : List String) :
    (∀ r : Response, acceptsUrl (some r) = true ↔
      (r.statusCode = 200 ∧ 1000 < r.contentLength ∧
        containsSub (pyLower r.contentType) "html" = true ∧ 3 ≤ validCount r)) ∧
    acceptsUrl none = false ∧
    ((findUrlLoop w urls).1 = none ↔ ∀ u ∈ urls, acceptsUrl (w.get u) = false) ∧
    (∀ u, (findUrlLoop w urls).1 = some u →
      ∃ pre post, urls = pre ++ u :: post ∧ acceptsUrl (w.get u) = true ∧
        (∀ v ∈ pre, acceptsUrl (w.get v) = false) ∧
        (findUrlLoop w urls).2 = pre ++ [u]) := by
  refine ⟨?_, rfl, ?_⟩
  · intro r
    simp [acceptsUrl, urlContentValid, Bool.and_eq_true, decide_eq_true_eq,
      beq_iff_eq, and_assoc]
  · induction urls with
    | nil =>
      refine ⟨by simp [findUrlLoop], ?_⟩
      intro u h
      simp [findUrlLoop] at h
    | cons a rest ih =>
      cases hw : w.get a with
      | none =>
        have ha : acceptsUrl (w.get a) = false := by rw [hw]; rfl
        constructor
        · simp only [findUrlLoop, hw, List.forall_mem_cons]
          constructor
          · intro h
            exact ⟨rfl, ih.1.mp h⟩
          · intro h
            exact ih.1.mpr h.2
        · intro u hu
          simp only [findUrlLoop, hw] at hu
          obtain ⟨pre, post, heq, hacc, hpre, htr⟩ := ih.2 u hu
          refine ⟨a :: pre, post, by simp [heq], hacc, ?_, ?_⟩
          · intro v hv
            rcases List.mem_cons.mp hv with h1 | h2
            · exact h1 ▸ ha
            · exact hpre v h2
          · simp only [findUrlLoop, hw]
            simp [htr]
      | some r =>
        by_cases hc : (r.statusCode == 200 && urlContentValid r) = true
        · have har : acceptsUrl (some r) = true := hc
          have ha : acceptsUrl (w.get a) = true := by rw [hw]; exact har
          constructor
          · simp only [findUrlLoop, hw, if_pos hc]
            constructor
            · intro h
              exact absurd h (by simp)
            · intro h
              have h2 := h a (by simp)
              rw [ha] at h2
              exact Bool.noConfusion h2
          · intro u hu
            simp only [findUrlLoop, hw, if_pos hc] at hu
            obtain rfl : a = u := by simpa using hu
            refine ⟨[], rest, rfl, ha, by simp, ?_⟩
            simp only [findUrlLoop, hw, if_pos hc]
            simp
        · have har : acceptsUrl (some r) = false := Bool.eq_false_iff.mpr hc
          have ha : acceptsUrl (w.get a) = false := by rw [hw]; exact har
          constructor
          · simp only [findUrlLoop, hw, if_neg hc, List.forall_mem_cons]
            constructor
            · intro h
              exact ⟨har, ih.1.mp h⟩
            · intro h
              exact ih.1.mpr h.2
          · intro u hu
            simp only [findUrlLoop, hw, if_neg hc] at hu
            obtain ⟨pre, post, heq, hacc, hpre, htr⟩ := ih.2 u hu
            refine ⟨a :: pre, post, by simp [heq], hacc, ?_, ?_⟩
            · intro v hv
              rcases List.mem_cons.mp hv with h1 | h2
              · exact h1 ▸ ha
              · exact hpre v h2
            · simp only [findUrlLoop, hw, if_neg hc]
              simp [htr]

/-- C6 witness (end-to-end scenario 1): candidate A 404s, candidate B is
a valid 200 page — B is selected and both probes happen. -/
theorem find_working_url_witness :
    ∃ pre post, ["A", "B"] = pre ++ "B" :: post ∧
      acceptsUrl (abWorld.get "B") = true ∧
      (∀ v ∈ pre, acceptsUrl (abWorld.get v) = false) ∧
      (findUrlLoop abWorld ["A", "B"]).2 = pre ++ ["B"] :=
  (find_working_url_spec abWorld ["A", "B"]).2.2.2 "B" (by decide)

/-! ## C7: resolver idempotence and the probe cache -/

theorem findUrlLoop_trail_prefix (w : World) (urls : List String) :
    ∃ post, urls = (findUrlLoop w urls).2 ++ post := by
  induction urls with
  | nil => exact ⟨[], rfl⟩
  | cons a rest ih =>
    cases hw : w.get a with
    | none =>
      obtain ⟨post, hpost⟩ := ih
      refine ⟨post, ?_⟩
      simp only [findUrlLoop, hw]
      simpa using hpost
    | some r =>
      by_cases hc : (r.statusCode == 200 && urlContentValid r) = true
      · refine ⟨rest, ?_⟩
        simp only [findUrlLoop, hw, if_pos hc]
        simp
      · obtain ⟨post, hpost⟩ := ih
        refine ⟨post, ?_⟩
        simp only [findUrlLoop, hw, if_neg hc]
        simpa using hpost

/-- C7 counterexample: when no candidate qualifies, the cache is never
written, so a second call re-probes every candidate — the first
candidate is probed twice across the two calls, violating
"at most once in total". -/
theorem resolve_reprobe_on_failure_cex :
    ((resolveOnce none failWorld).2.2 ++
      (resolveOnce (resolveOnce none failWorld).2.1 failWorld).2.2).count
        wardhaUrl1 = 2 ∧
    ¬(((resolveOnce none failWorld).2.2 ++
      (resolveOnce (resolveOnce none failWorld).2.1 failWorld).2.2).count
        wardhaUrl1 ≤ 1) := by
  refine ⟨by decide, by decide⟩

/-- C7 (amended): when the first call succeeds, the second call returns
the identical URL from the cache without issuing a single probe, and
across both calls every candidate is probed at most once.  (When the
first call fails, the cache stays empty and the second call re-probes —
see the counterexample.) -/
theorem resolve_cached_after_success (w1 w2 : World) (u : String)
    (h : (resolveOnce none w1).1 = some u) :
    (resolveOnce (resolveOnce none w1).2.1 w2).1 = some u ∧
    (resolveOnce (resolveOnce none w1).2.1 w2).2.2 = [] ∧
    (∀ v, ((resolveOnce none w1).2.2 ++
      (resolveOnce (resolveOnce none w1).2.1 w2).2.2).count v ≤ 1) := by
  have h1 : resolveOnce none w1 =
      (some u, some u, (findUrlLoop w1 searchUrls).2) := by
    unfold resolveOnce at h ⊢
    cases hl : findUrlLoop w1 searchUrls with
    | mk o tr =>
      cases o with
      | none => rw [hl] at h; exact absurd h (by simp)
      | some u2 =>
        rw [hl] at h
        obtain rfl : u2 = u := by simpa using h
        rfl
  rw [h1]
  refine ⟨rfl, rfl, ?_⟩
  intro v
  obtain ⟨post, hpost⟩ := findUrlLoop_trail_prefix w1 searchUrls
  have hnodup : searchUrls.Nodup := by decide
  rw [hpost] at hnodup
  have htr : ((findUrlLoop w1 searchUrls).2).Nodup := hnodup.of_append_left
  simpa using List.nodup_iff_count_le_one.mp htr v

/-- C7 witness: a world whose first candidate qualifies. -/
theorem resolve_cached_witness :
    (resolveOnce (resolveOnce none c1World).2.1 c1World).1 = some wardhaUrl1 ∧
    (resolveOnce (resolveOnce none c1World).2.1 c1World).2.2 = [] ∧
    (∀ v, ((resolveOnce none c1World).2.2 ++
      (resolveOnce (resolveOnce none c1World).2.1 c1World).2.2).count v ≤ 1) :=
  resolve_cached_after_success c1World c1World wardhaUrl1 (by decide)

/-! ## C8: obstacle-detector kind reporting -/

theorem captchaFold_spec (d : HtmlDoc) (inds : List ((Element → Bool) × String)) :
    ∀ info : CaptchaInfo,
      (inds.foldl (captchaStep d) info).captcha_type =
        (match lastStructuralKind d inds with
         | some t => some t
         | none => info.captcha_type) ∧
      (inds.foldl (captchaStep d) info).has_captcha =
        (info.has_captcha || (lastStructuralKind d inds).isSome) := by
  induction inds with
  | nil =>
    intro info
    simp [lastStructuralKind]
  | cons i rest ih =>
    intro info
    have hstep := ih (captchaStep d info i)
    simp only [List.foldl_cons]
    cases hl : lastStructuralKind d rest with
    | some t =>
      refine ⟨?_, ?_⟩
      · rw [hstep.1, hl]
        simp [lastStructuralKind, hl]
      · rw [hstep.2, hl]
        simp only [lastStructuralKind, hl, Option.isSome_some, Bool.or_true]
    | none =>
      by_cases hc : countSel d i.1 ≠ 0
      · have hs : captchaStep d info i =
            { has_captcha := true, captcha_type := some i.2,
              captcha_elements := info.captcha_elements ++ [(i.2, countSel d i.1)] } := by
          simp [captchaStep, hc]
        refine ⟨?_, ?_⟩
        · rw [hstep.1, hl]
          simp [lastStructuralKind, hl, hc, hs]
        · rw [hstep.2, hl]
          simp [lastStructuralKind, hl, hc, hs]
      · have hs : captchaStep d info i = info := by
          simp [captchaStep, hc]
        refine ⟨?_, ?_⟩
        · rw [hstep.1, hl]
          simp [lastStructuralKind, hl, hc, hs]
        · rw [hstep.2, hl]
          simp [lastStructuralKind, hl, hc, hs]

/-- C8 (amended): when several structural indicators match, the
detector reports the kind of the *last* matching indicator in the fixed
scan order (each hit overwrites the previous kind), and the text-based
kind is reported only when no structural indicator matched at all. -/
theorem captcha_kind_last_match (d : HtmlDoc) :
    (check_captcha d).captcha_type =
      (match lastStructuralKind d captchaIndicators with
       | some t => some t
       | none => if textualCaptcha d then some "text_based" else none) ∧
    (check_captcha d).has_captcha =
      ((lastStructuralKind d captchaIndicators).isSome || textualCaptcha d) := by
  have h := captchaFold_spec d captchaIndicators ⟨false, none, []⟩
  unfold check_captcha
  by_cases ht : textualCaptcha d = true
  · rw [if_pos ht]
    cases hl : lastStructuralKind d captchaIndicators with
    | some t =>
      have h1 := h.1
      rw [hl] at h1
      simp only [h1]
      simp [hl, ht]
    | none =>
      have h1 := h.1
      rw [hl] at h1
      simp only [h1]
      simp [hl, ht]
  · rw [if_neg ht]
    have hf : textualCaptcha d = false := Bool.eq_false_iff.mpr ht
    cases hl : lastStructuralKind d captchaIndicators with
    | some t =>
      have h1 := h.1
      have h2 := h.2
      rw [hl] at h1 h2
      simp [h1, h2, hl, hf]
    | none =>
      have h1 := h.1
      have h2 := h.2
      rw [hl] at h1 h2
      simp [h1, h2, hl, hf]

/-- C8 counterexample: a page matching both the image indicator (first)
and the input indicator (second) is reported with kind `input`, not the
first matching kind `image`. -/
theorem captcha_kind_first_match_cex :
    firstStructuralKind c8Doc = some "image" ∧
    (check_captcha c8Doc).captcha_type = some "input" ∧
    some "input" ≠ some "image" := by
  refine ⟨by decide, by decide, by decide⟩

/-- C8 witness: the amended statement evaluated on the two-indicator
document. -/
theorem captcha_kind_witness :
    (check_captcha c8Doc).captcha_type =
      (match lastStructuralKind c8Doc captchaIndicators with
       | some t => some t
       | none => if textualCaptcha c8Doc then some "text_based" else none) ∧
    (check_captcha c8Doc).has_captcha =
      ((lastStructuralKind c8Doc captchaIndicators).isSome ||
        textualCaptcha c8Doc) :=
  captcha_kind_last_match c8Doc

/-! ## C9: "no record" phrases short-circuit extraction -/

/-- C9: whenever the page text contains one of the fixed bilingual "no
record" phrases (the scan is over lower-cased text, so letter case is
irrelevant), `_parse_response` returns the not-found result built from
the first matching phrase and the structured extractor is never invoked
on that response. -/
theorem not_found_short_circuit (d : HtmlDoc) (ct cn : String) (fy : Nat)
    (h : ∃ p ∈ errorIndicators, containsSub (pyLower d.pageText) p = true) :
    ∃ p ∈ errorIndicators, containsSub (pyLower d.pageText) p = true ∧
      parse_response d ct cn fy = (.notFoundIndicator p, false) := by
  have hs : (errorIndicators.find?
      (fun p => containsSub (pyLower d.pageText) p)).isSome := by
    obtain ⟨p, hp, hc⟩ := h
    exact List.find?_isSome.mpr ⟨p, hp, hc⟩
  cases hf : errorIndicators.find? (fun p => containsSub (pyLower d.pageText) p) with
  | none => rw [hf] at hs; exact absurd hs (by simp)
  | some q =>
    refine ⟨q, List.mem_of_find?_eq_some hf, List.find?_some hf, ?_⟩
    simp only [parse_response, hf]

/-- C9 witness: a mixed-case "No Record Found" page. -/
theorem not_found_short_circuit_witness :
    ∃ p ∈ errorIndicators, containsSub (pyLower nrfDoc.pageText) p = true ∧
      parse_response nrfDoc "Civil" "123" 2020 = (.notFoundIndicator p, false) :=
  not_found_short_circuit nrfDoc "Civil" "123" 2020
    ⟨"no record found", by decide, by decide⟩

/-! ## C10: the fabricated placeholder record -/

/-- Whatever record the heuristic pass returns is exactly the fabricated
placeholder. -/
theorem alternative_parsing_eq (page_text ct cn : String) (fy : Nat)
    (r : CaseRecord) (h : alternative_parsing page_text ct cn fy = some r) :
    r = placeholderRecord ct cn fy (patternsFound page_text) := by
  unfold alternative_parsing at h
  split at h
  · split at h
    · exact (Option.some.inj h).symm
    · exact absurd h (by simp)
  · exact absurd h (by simp)

/-- C10: every record produced by the secondary heuristic pass carries a
filing date fabricated as January 1 of the queried filing year and the
two fixed advisory placeholder party strings — none of them extracted
from the page. -/
theorem placeholder_fabricated_fields (page_text ct cn : String) (fy : Nat)
    (r : CaseRecord) (h : alternative_parsing page_text ct cn fy = some r) :
    r.filing_date = some (toString fy ++ "-01-01") ∧
    r.petitioner =
      ["Case information available - please check court website directly"] ∧
    r.respondent =
      ["Detailed parsing required - manual verification recommended"] := by
  rw [alternative_parsing_eq page_text ct cn fy r h]
  exact ⟨rfl, rfl, rfl⟩

/-- C10 witness: the heuristic pass fires on `altTxt` and fabricates the
2020 filing date and both advisory strings. -/
theorem placeholder_fabricated_witness :
    ∃ r, alternative_parsing altTxt "Civil" "123" 2020 = some r ∧
      r.filing_date = some "2020-01-01" ∧
      r.petitioner =
        ["Case information available - please check court website directly"] ∧
      r.respondent =
        ["Detailed parsing required - manual verification recommended"] := by
  refine ⟨placeholderRecord "Civil" "123" 2020 (patternsFound altTxt),
    by decide, ?_⟩
  have h := placeholder_fabricated_fields altTxt "Civil" "123" 2020
    (placeholderRecord "Civil" "123" 2020 (patternsFound altTxt)) (by decide)
  simpa using h

/-! ## C2: hidden-field merge precedence -/

/-- C2 counterexample: scheme 1 maps `case_no` to the queried case
number `123`, but after the merge a hidden input named `case_no` wins —
the hidden-field value `XYZ` overrides the scheme value, contradicting
"the scheme-specific value takes precedence". -/
theorem scheme_precedence_cex :
    dictLookup ((formVariations "Civil" "123" 2020).getD 0 []) "case_no" =
      some "123" ∧
    dictLookup ((prepare_form_data hiddenDoc "Civil" "123" 2020).getD 0 [])
      "case_no" = some "XYZ" ∧
    some "XYZ" ≠ some "123" := by
  refine ⟨by decide, by decide, by decide⟩

/-- C2 (amended): every one of the seven fixed schemes is merged with
the extracted hidden fields, and on a key collision the *hidden-field*
value takes precedence; scheme values survive only for keys absent from
the hidden fields. -/
theorem hidden_fields_take_precedence (d : HtmlDoc) (ct cn : String) (fy : Nat)
    (i : Nat) (k : String) (hi : i < (formVariations ct cn fy).length) :
    (prepare_form_data d ct cn fy).length = (formVariations ct cn fy).length ∧
    dictLookup ((prepare_form_data d ct cn fy).getD i []) k =
      (match dictLookup (extract_hidden_fields d) k with
       | some v => some v
       | none => dictLookup ((formVariations ct cn fy).getD i []) k) := by
  refine ⟨by simp [prepare_form_data], ?_⟩
  obtain ⟨v, hv⟩ : ∃ v, (formVariations ct cn fy)[i]? = some v :=
    ⟨_, List.getElem?_eq_getElem hi⟩
  have h1 : (prepare_form_data d ct cn fy).getD i [] =
      dictUpdate v (extract_hidden_fields d) := by
    simp [prepare_form_data, List.getD_eq_getElem?_getD, List.getElem?_map, hv]
  have h2 : (formVariations ct cn fy).getD i [] = v := by
    simp [List.getD_eq_getElem?_getD, hv]
  rw [h1, h2, dictLookup_dictUpdate]

/-- C2 witness: the amended merge rule at the colliding key. -/
theorem hidden_fields_take_precedence_witness :
    (prepare_form_data hiddenDoc "Civil" "123" 2020).length =
      (formVariations "Civil" "123" 2020).length ∧
    dictLookup ((prepare_form_data hiddenDoc "Civil" "123" 2020).getD 0 [])
      "case_no" =
      (match dictLookup (extract_hidden_fields hiddenDoc) "case_no" with
       | some v => some v
       | none =>
         dictLookup ((formVariations "Civil" "123" 2020).getD 0 []) "case_no") :=
  hidden_fields_take_precedence hiddenDoc "Civil" "123" 2020 0 "case_no" (by decide)

/-! ## C3: order de-duplication and the 10-entry bound -/

theorem ordersRowStep_nodup (orders : List OrderEntry) (cells : List String)
    (h : (orders.map OrderEntry.description).Nodup) :
    ((ordersRowStep orders cells).map OrderEntry.description).Nodup := by
  unfold ordersRowStep
  split_ifs with h1 h2 h3
  · simp only [Bool.and_eq_true] at h3
    obtain ⟨⟨_, hnotany⟩, _⟩ := h3
    simp only [Bool.not_eq_eq_eq_not, Bool.not_true, List.any_eq_false,
      decide_eq_true_eq] at hnotany
    rw [List.map_append]
    refine List.Nodup.append h (by simp) ?_
    intro x hx hx2
    simp only [List.map_cons, List.map_nil, List.mem_singleton] at hx2
    subst hx2
    obtain ⟨o, ho, hdesc⟩ := List.exists_of_mem_map hx
    exact hnotany o ho hdesc
  all_goals exact h

theorem ordersItemStep_nodup (orders : List OrderEntry) (item : OrderItem)
    (h : (orders.map OrderEntry.description).Nodup) :
    ((ordersItemStep orders item).map OrderEntry.description).Nodup := by
  unfold ordersItemStep
  split_ifs with h1 h2
  · simp only [Bool.not_eq_eq_eq_not, Bool.not_true, List.any_eq_false,
      decide_eq_true_eq] at h2
    rw [List.map_append]
    refine List.Nodup.append h (by simp) ?_
    intro x hx hx2
    simp only [List.map_cons, List.map_nil, List.mem_singleton] at hx2
    subst hx2
    obtain ⟨o, ho, hdesc⟩ := List.exists_of_mem_map hx
    exact h2 o ho hdesc
  all_goals exact h

/-- C3 counterexample: two PDF links with identical link text produce a
record whose order list holds two entries with the same description —
the PDF-link pass appends without de-duplication. -/
theorem orders_duplicate_description_cex :
    ((extract_case_info dupDoc "Civil" "1" 2020).orders.map
      OrderEntry.description) = ["Order One", "Order One"] ∧
    ¬ ((extract_case_info dupDoc "Civil" "1" 2020).orders.map
      OrderEntry.description).Nodup := by
  refine ⟨by decide, by decide⟩

/-- C3 (amended): the order list never exceeds 10 entries, for every
document without exception; and the table-row and container passes
de-duplicate against everything already collected — so whenever the
PDF-link pass itself introduces no duplicate descriptions, the whole
order list has pairwise-distinct descriptions (first-seen order
preserved by construction). -/
theorem orders_dedup_bounded (d : HtmlDoc) :
    (extract_orders d).length ≤ 10 ∧
    (((ordersPass1 d).map OrderEntry.description).Nodup →
      ((extract_orders d).map OrderEntry.description).Nodup) := by
  constructor
  · simp only [extract_orders]
    exact List.length_take_le 10 _
  · intro h
    have h2 := foldl_preserve
      (fun os => (os.map OrderEntry.description).Nodup) ordersRowStep
      (fun acc x hx => ordersRowStep_nodup acc x hx)
      d.tables.flatten (ordersPass1 d) h
    have h3 := foldl_preserve
      (fun os => (os.map OrderEntry.description).Nodup) ordersItemStep
      (fun acc x hx => ordersItemStep_nodup acc x hx)
      d.orderContainers.flatten
      (d.tables.flatten.foldl ordersRowStep (ordersPass1 d)) h2
    simp only [extract_orders]
    rw [List.map_take]
    exact List.Nodup.sublist (List.take_sublist 10 _) h3

/-- C3 witness: a document with one PDF link and a duplicated order row
— the duplicate row is suppressed and the bound holds. -/
theorem orders_bounded_witness :
    (extract_orders c3Doc).length ≤ 10 ∧
    ((extract_orders c3Doc).map OrderEntry.description).Nodup :=
  ⟨(orders_dedup_bounded c3Doc).1, (orders_dedup_bounded c3Doc).2 (by decide)⟩

/-! ## C4: the validity gate and the heuristic fallback condition -/

theorem placeholder_is_valid (ct cn : String) (fy : Nat) (pf : PatternsFound) :
    is_valid_case_data (placeholderRecord ct cn fy pf) = true := rfl

/-- C4 counterexample: a page that mentions the case number and filing
year and exceeds 500 characters, yet the heuristic pass returns nothing
— it additionally requires at least one heuristic pattern (date token,
legal term, or Maharashtra term), which the claim's "exactly when"
omits. -/
theorem heuristic_needs_pattern_cex :
    containsSub bareTxt "123" = true ∧
    containsSub bareTxt "2020" = true ∧
    500 < (pyStrip bareTxt).length ∧
    alternative_parsing bareTxt "Civil" "123" 2020 = none := by
  refine ⟨by decide, by decide, by decide, by decide⟩

/-- C4 (amended): every record `_parse_response` returns satisfies the
validity gate (the structured path is gated by `_is_valid_case_data`,
and the heuristic placeholder always passes it), and the heuristic pass
produces a record iff the body text contains the case number and the
filing year, is longer than 500 characters, *and* contains at least one
heuristic pattern; otherwise extraction returns nothing. -/
theorem validity_gate_and_heuristic_condition (d : HtmlDoc)
    (page_text ct cn : String) (fy : Nat) :
    parseResultValid (parse_response d ct cn fy).1 = true ∧
    ((alternative_parsing page_text ct cn fy).isSome ↔
      (containsSub page_text cn = true ∧
        containsSub page_text (toString fy) = true ∧
        500 < (pyStrip page_text).length ∧
        pfNonempty (patternsFound page_text) = true)) := by
  constructor
  · cases hf : errorIndicators.find?
        (fun p => containsSub (pyLower d.pageText) p) with
    | some p => simp [parse_response, hf, parseResultValid]
    | none =>
      by_cases hv : is_valid_case_data (extract_case_info d ct cn fy) = true
      · simp [parse_response, hf, hv, parseResultValid]
      · cases ha : alternative_parsing (pyLower d.pageText) ct cn fy with
        | some r =>
          have hr := alternative_parsing_eq _ _ _ _ _ ha
          simp [parse_response, hf, hv, ha, parseResultValid, hr,
            placeholder_is_valid]
        | none => simp [parse_response, hf, hv, ha, parseResultValid]
  · constructor
    · intro hsm
      unfold alternative_parsing at hsm
      by_cases h1 : (containsSub page_text cn &&
          containsSub page_text (toString fy) &&
          decide (500 < (pyStrip page_text).length)) = true
      · rw [if_pos h1] at hsm
        by_cases h2 : pfNonempty (patternsFound page_text) = true
        · simp only [Bool.and_eq_true, decide_eq_true_eq] at h1
          exact ⟨h1.1.1, h1.1.2, h1.2, h2⟩
        · rw [if_neg h2] at hsm
          simp at hsm
      · rw [if_neg h1] at hsm
        simp at hsm
    · rintro ⟨hcn, hfy, hlen, hpf⟩
      unfold alternative_parsing
      rw [if_pos (by rw [hcn, hfy]; simpa using hlen), if_pos hpf]
      simp

/-- C4 witness: the gate holds on the CAPTCHA page's parse, and the
heuristic condition fires on `altTxt`. -/
theorem validity_gate_witness :
    parseResultValid (parse_response capDoc "Civil" "123" 2020).1 = true ∧
    ((alternative_parsing altTxt "Civil" "123" 2020).isSome ↔
      (containsSub altTxt "123" = true ∧
        containsSub altTxt (toString 2020) = true ∧
        500 < (pyStrip altTxt).length ∧
        pfNonempty (patternsFound altTxt) = true)) :=
  ⟨(validity_gate_and_heuristic_condition capDoc altTxt "Civil" "123" 2020).1,
    (validity_gate_and_heuristic_condition capDoc altTxt "Civil" "123" 2020).2⟩

/-! ## C1: where the CAPTCHA gate actually runs -/

/-- C1 counterexample: the search page is clean, every submission
returns HTTP 200 with a CAPTCHA-blocked document — yet the engine never
returns `Obstructed`: it keeps trying all seven strategies (one
combination each, then `break`) and ends with the exhausted not-found
outcome.  The ObstacleDetector is not run on submission responses. -/
theorem captcha_gate_not_on_submissions_cex :
    (check_captcha capDoc).has_captcha = true ∧
    c1World.submit "POST" (wardhaUrl1 ++ "")
      ((prepare_form_data searchDoc "Civil" "123" 2020).getD 0 []) =
      some capResp ∧
    capResp.statusCode = 200 ∧
    isObstructed (fetch_case_data c1World "Civil" "123" 2020).1 = false ∧
    (fetch_case_data c1World "Civil" "123" 2020).1 = .exhausted 7 ∧
    (fetch_case_data c1World "Civil" "123" 2020).2.length = 7 := by
  refine ⟨by decide, by decide, by decide, by decide, by decide, by decide⟩

/-- C1 (amended): the ObstacleDetector runs once, on the search page,
before any submission: when resolution succeeds and the loaded search
page is CAPTCHA-blocked, `fetch_case_data` returns `Obstructed`
immediately and issues zero submission requests. -/
theorem captcha_gate_before_submissions (w : World) (ct cn : String) (fy : Nat)
    (wu : String) (page : Response)
    (h1 : (resolveOnce none w).1 = some wu)
    (h2 : w.get wu = some page)
    (h3 : page.statusCode < 400)
    (h4 : (check_captcha page.doc).has_captcha = true) :
    fetch_case_data w ct cn fy = (.obstructed (check_captcha page.doc), []) := by
  simp only [fetch_case_data, h1, h2]
  rw [if_neg (by omega : ¬ 400 ≤ page.statusCode)]
  rw [if_pos h4]

/-- C1 witness: a world whose resolved search page carries the CAPTCHA
document — the fetch is obstructed with an empty submission trail. -/
theorem captcha_gate_before_submissions_witness :
    fetch_case_data capSearchWorld "Civil" "123" 2020 =
      (.obstructed (check_captcha capSearchResp.doc), []) :=
  captcha_gate_before_submissions capSearchWorld "Civil" "123" 2020 wardhaUrl1
    capSearchResp (by decide) (by decide) (by decide) (by decide)

end Wardha
